import Mathlib

/-!
# CameraCommander — verification of the dual-axis turntable firmware core

Shallow embedding of `src/ref_esp8266/GearedStepper.cpp` and
`src/ref_esp8266/main.cpp` (the geared-axis wrapper and the serial command
dispatcher). C `float` values are modelled as exact rationals (`ℚ`);
C `long`/`int` values as `Int`. Physical output lines (enable line,
microstep-select lines MS1..MS3) are modelled as `Bool` levels
(`true` = HIGH). The external AccelStepper motion primitive is modelled by
the fields it exposes to this layer: current position, target position,
max speed, acceleration, and a stop-request flag (its `stop()` entry point
only schedules a deceleration, which is all this layer observes).
-/

namespace CameraCommander

/-- Executable floor on `ℚ` (equals `⌊q⌋`, see `ratFloor_eq`). -/
def ratFloor (q : ℚ) : Int := q.num / (q.den : Int)

/-- Executable ceiling on `ℚ` (equals `⌈q⌉`, see `ratCeil_eq`). -/
def ratCeil (q : ℚ) : Int := -ratFloor (-q)

/-- C `lroundf`: round to nearest integer, halves away from zero. -/
def lround (q : ℚ) : Int :=
  if 0 ≤ q then ratFloor (q + 1/2) else ratCeil (q - 1/2)

/-- State of one `GearedStepper` (fields of the C++ object together with the
hardware lines it drives and the motion-primitive state it wraps). -/
structure Stepper where
  base : Int      -- `_base_steps_per_rot` (immutable)
  gear : ℚ        -- `_gear_ratio` (immutable)
  msRes : Int     -- `_microstep_resolution`
  ms1 : Bool      -- MS1 select-line level (true = HIGH)
  ms2 : Bool      -- MS2 select-line level
  ms3 : Bool      -- MS3 select-line level
  enPin : Bool    -- enable-line level: true = HIGH = driver disabled
  speed : ℚ       -- AccelStepper max speed
  accel : ℚ       -- AccelStepper acceleration
  pos : Int       -- AccelStepper current position
  target : Int    -- AccelStepper target position
  stopReq : Bool  -- a `stop()` (controlled deceleration) has been requested
deriving DecidableEq

/-- Model of `GearedStepper::setMaxSpeed` — forwarded to the motion primitive. -/
def setMaxSpeed (s : Stepper) (v : ℚ) : Stepper := { s with speed := v }

/-- Model of `GearedStepper::setAcceleration` — forwarded to the motion primitive. -/
def setAcceleration (s : Stepper) (a : ℚ) : Stepper := { s with accel := a }

/-- Model of `GearedStepper::move` — AccelStepper `move(relative)` sets the target
relative to the current position; non-blocking. -/
def move (s : Stepper) (rel : Int) : Stepper := { s with target := s.pos + rel }

/-- Model of `GearedStepper::stop` — requests a controlled deceleration from the motion
primitive; modelled as raising the stop-request flag. -/
def stop (s : Stepper) : Stepper := { s with stopReq := true }

/-- Model of `GearedStepper::distanceToGo` — AccelStepper target minus current. -/
def distanceToGo (s : Stepper) : Int := s.target - s.pos

/-- Model of `GearedStepper::enable` — drives the enable line LOW (active-low). -/
def enable (s : Stepper) : Stepper := { s with enPin := false }

/-- Model of `GearedStepper::disable` — drives the enable line HIGH. -/
def disable (s : Stepper) : Stepper := { s with enPin := true }

/-- Model of `GearedStepper::setMicrostepResolution`: stores `res` unconditionally,
then the `switch` drives the three select lines only for
`res ∈ {1,2,4,8,16}` (no `default` case). -/
def setMicrostepResolution (s : Stepper) (res : Int) : Stepper :=
  let s0 := { s with msRes := res }
  if res = 1 then { s0 with ms1 := false, ms2 := false, ms3 := false }
  else if res = 2 then { s0 with ms1 := true, ms2 := false, ms3 := false }
  else if res = 4 then { s0 with ms1 := false, ms2 := true, ms3 := false }
  else if res = 8 then { s0 with ms1 := true, ms2 := true, ms3 := false }
  else if res = 16 then { s0 with ms1 := true, ms2 := true, ms3 := true }
  else s0

/-- Model of `GearedStepper::getMicrostepResolution`. -/
def getMicrostepResolution (s : Stepper) : Int := s.msRes

/-- Model of `GearedStepper::getOutputStepsPerRotation`:
`lroundf(_base_steps_per_rot * _gear_ratio)`. -/
def getOutputStepsPerRotation (s : Stepper) : Int :=
  lround ((s.base : ℚ) * s.gear)

/-- Model of `GearedStepper::begin`: forces `disable()` then
`setMicrostepResolution(16)`. (Pin-mode setup is out of scope.) -/
def beginStepper (s : Stepper) : Stepper :=
  setMicrostepResolution (disable s) 16

/-- Fuel-bounded evaluation of `GearedStepper::maxSpeed`, whose C++ body is
`return maxSpeed();` — a call to itself (not to the wrapped AccelStepper).
`none` means evaluation did not produce a value within the given fuel. -/
def maxSpeedEval : Nat → Stepper → Option ℚ
  | 0, _ => none
  | n + 1, s => maxSpeedEval n s

/-- Model of `degToMicrosteps` from `main.cpp`: the pulse count for `deg` degrees is
`lroundf(deg / 360.0f * µ)` with
`µ = getOutputStepsPerRotation() * getMicrostepResolution()`. -/
def degToMicrosteps (stp : Stepper) (deg : ℚ) : Int :=
  let mu : Int := getOutputStepsPerRotation stp * getMicrostepResolution stp
  lround (deg / 360 * (mu : ℚ))

/-- Spec-side formula, for refinement comparison only. Modelled from the spec:
`degreesToPulses(axis, degrees) =
round(degrees / 360 * outputStepsPerRotation(axis) * microstepResolution(axis))`
with `outputStepsPerRotation = round(basestepsPerMotorRev * gearRatio)`. -/
def degreesToPulses_spec (s : Stepper) (deg : ℚ) : Int :=
  lround (deg / 360 * (lround ((s.base : ℚ) * s.gear) : ℚ) * (s.msRes : ℚ))

/-! ## Dual-axis controller state (`main.cpp` globals) -/

/-- Firmware version string (`FW_VERSION`). -/
def FW_VERSION : String := "1.0.1"

/-- Constant `MOTOR_STEPS_PER_REV = 100`. -/
def MOTOR_STEPS_PER_REV : Int := 100

/-- Constant `GEAR_RATIO_TT = 11.335f` (float literal modelled as the exact decimal). -/
def GEAR_RATIO_TT : ℚ := 11.335

/-- Constant `GEAR_RATIO_VT = 6.2f * 7.5f`. -/
def GEAR_RATIO_VT : ℚ := 6.2 * 7.5

/-- Constant `RATIO_TT_TO_VT = GEAR_RATIO_VT / GEAR_RATIO_TT`. -/
def RATIO_TT_TO_VT : ℚ := GEAR_RATIO_VT / GEAR_RATIO_TT

/-- Constant `ROT_SPEED0 = 150.0f`. -/
def ROT_SPEED0 : ℚ := 150

/-- Constant `ROT_ACCEL0 = 80.0f`. -/
def ROT_ACCEL0 : ℚ := 80

/-- Whole-system state: the two steppers plus the per-axis direction signs
of the `Axis` bookkeeping structs (`rot.dir`, `til.dir`). `tt` is the
turntable (pan) axis, `vt` the tilt axis. -/
structure SysState where
  tt : Stepper
  vt : Stepper
  rotDir : Int
  tilDir : Int
deriving DecidableEq

/-- Model of `setRotaryMotorSpeed(v, a)` from `main.cpp`: pan gets `(v, a)`, tilt gets
both scaled by `RATIO_TT_TO_VT`. -/
def setRotaryMotorSpeed (st : SysState) (v a : ℚ) : SysState :=
  { st with
      tt := setAcceleration (setMaxSpeed st.tt v) a,
      vt := setAcceleration (setMaxSpeed st.vt (v * RATIO_TT_TO_VT))
              (a * RATIO_TT_TO_VT) }

/-! ## Serial line handling -/

/-- Whitespace recognised by `String::trim` / `isspace`. -/
def isWS (c : Char) : Bool :=
  c = ' ' || c = '\t' || c = '\n' || c = Char.ofNat 11 || c = Char.ofNat 12 ||
  c = '\r'

/-- Arduino `String::trim`: strip leading and trailing whitespace. -/
def trimChars (cs : List Char) : List Char :=
  ((cs.dropWhile isWS).reverse.dropWhile isWS).reverse

/-- Longest prefix of decimal digits. -/
def takeDigits : List Char → List Char × List Char
  | [] => ([], [])
  | c :: cs =>
      if c.isDigit then
        let p := takeDigits cs
        (c :: p.1, p.2)
      else ([], c :: cs)

/-- Value of a digit string. -/
def digitsToNat (ds : List Char) : Nat :=
  ds.foldl (fun a c => a * 10 + (c.toNat - 48)) 0

/-- Unsigned decimal number: `digits [. digits]` or `. digits`.
Fails when no digit is present. -/
def parseUFloat (cs : List Char) : Option (ℚ × List Char) :=
  let p := takeDigits cs
  match p.2 with
  | '.' :: r2 =>
      let q := takeDigits r2
      if p.1.isEmpty ∧ q.1.isEmpty then none
      else some ((digitsToNat p.1 : ℚ) + (digitsToNat q.1 : ℚ) / 10 ^ q.1.length, q.2)
  | _ => if p.1.isEmpty then none else some ((digitsToNat p.1 : ℚ), p.2)

/-- One `%f` conversion: optional sign then an unsigned decimal number.
Modelled from C `sscanf` `%f` (decimal forms; exponent and hexadecimal
forms are not modelled — no claim depends on them). -/
def parseFloatField (cs : List Char) : Option (ℚ × List Char) :=
  match cs with
  | '-' :: r => (parseUFloat r).map (fun p => (-p.1, p.2))
  | '+' :: r => parseUFloat r
  | _ => parseUFloat cs

/-- Modelled from C `sscanf(s, "%f %f", &a, &b)`: each `%f` skips leading
whitespace then converts one number; the result is `some (a, b)` exactly
when `sscanf` would return 2. -/
def sscanfTwoFloats (cs : List Char) : Option (ℚ × ℚ) :=
  match parseFloatField (cs.dropWhile isWS) with
  | none => none
  | some (a, r1) =>
      match parseFloatField (r1.dropWhile isWS) with
      | none => none
      | some (b, _) => some (a, b)

/-! ## The dispatcher (`loop()` in `main.cpp`)

`dispatchCmd st c rest` is the body of `loop()` after the line has been
read and trimmed and found non-empty: `c` is `line.charAt(0)` and `rest`
the remaining characters (so `sscanf(line.c_str() + 1, ...)` reads `rest`).
The result is `some (newState, reply)`; it is `none` when the dispatch
never returns: the `+`/`-` branch calls `turntableStepper.maxSpeed()`,
whose body is an unconditional call to itself, so that branch never
completes (see `maxSpeedEval`). -/

def dispatchCmd (st : SysState) (c : Char) (rest : List Char) :
    Option (SysState × Option String) :=
  if c = 'V' ∨ c = 'v' then
    some (st, some ("VERSION " ++ FW_VERSION))
  else if c = 'M' ∨ c = 'm' then
    match sscanfTwoFloats rest with
    | none => some (st, some "ERR Syntax")
    | some (panDeg, tiltDeg) =>
        let ps := degToMicrosteps st.tt panDeg
        let ts := degToMicrosteps st.vt tiltDeg
        some ({ st with tt := move (enable st.tt) ps,
                        vt := move (enable st.vt) ts }, some "OK M")
  else if c = 'Q' ∨ c = 'q' then
    if distanceToGo st.tt ≠ 0 ∨ distanceToGo st.vt ≠ 0 then
      some (st, some "BUSY")
    else
      some ({ st with tt := disable st.tt, vt := disable st.vt }, some "DONE")
  else if c = '1' ∨ c = '2' ∨ c = '4' ∨ c = '8' ∨ c = '6' ∨ c = Char.ofNat 0 then
    -- `strchr("12486", c)`; `strchr` also matches the NUL terminator.
    let res : Int := if c = '6' then 16 else (c.toNat : Int) - 48
    some ({ st with tt := setMicrostepResolution st.tt res,
                    vt := setMicrostepResolution st.vt res },
          some ("OK MICROSTEP " ++ toString res))
  else if c = 'n' ∨ c = 'N' then
    some ({ st with tt := move st.tt st.rotDir }, some "OK ROT STEP")
  else if c = 'c' ∨ c = 'C' then
    let r := getOutputStepsPerRotation st.tt * getMicrostepResolution st.tt
    some ({ st with tt := move st.tt (st.rotDir * r) }, some "OK ROT REV")
  else if c = 'r' ∨ c = 'R' then
    some ({ st with rotDir := -st.rotDir }, some "OK ROT DIR")
  else if c = 'x' ∨ c = 'X' then
    some ({ st with tt := stop st.tt }, some "OK ROT STOP")
  else if c = 'w' ∨ c = 'W' then
    some ({ st with vt := move st.vt st.tilDir }, some "OK TILT STEP")
  else if c = 'p' ∨ c = 'P' then
    let r := getOutputStepsPerRotation st.vt * getMicrostepResolution st.vt
    some ({ st with vt := move st.vt (st.tilDir * r) }, some "OK TILT REV")
  else if c = 't' ∨ c = 'T' then
    some ({ st with tilDir := -st.tilDir }, some "OK TILT DIR")
  else if c = 'z' then
    some ({ st with vt := stop st.vt }, some "OK TILT STOP")
  else if c = '+' ∨ c = '-' then
    none  -- `turntableStepper.maxSpeed()` recurses forever; no reply ever
  else if c = 'X' then
    some ({ st with tt := stop st.tt, vt := stop st.vt }, some "OK STOP")
  else if c = 'd' ∨ c = 'D' then
    some ({ st with tt := disable st.tt, vt := disable st.vt },
          some "OK DRIVERS OFF")
  else if c = 'e' ∨ c = 'E' then
    some ({ st with tt := enable st.tt, vt := enable st.vt },
          some "OK DRIVERS ON")
  else
    some (st, some "ERR Unknown")

/-- One poll of `loop()` on a complete input line (motion-primitive `run()`
calls aside): trim; an empty line produces no reply and no state change;
otherwise dispatch on the first character. -/
def dispatchChars (st : SysState) (cs : List Char) :
    Option (SysState × Option String) :=
  match trimChars cs with
  | [] => some (st, none)
  | c :: rest => dispatchCmd st c rest

/-! ## Concrete states for witnesses -/

/-- A fresh `GearedStepper` object: the constructor sets
`_microstep_resolution = 1`; all modelled line levels start LOW. -/
def mkStepper (base : Int) (gear : ℚ) : Stepper :=
  { base := base, gear := gear, msRes := 1,
    ms1 := false, ms2 := false, ms3 := false, enPin := false,
    speed := 0, accel := 0, pos := 0, target := 0, stopReq := false }

/-- System state after `setup()`: both steppers constructed and `begin()`
run, then `setRotaryMotorSpeed(ROT_SPEED0, ROT_ACCEL0)`. -/
def initState : SysState :=
  setRotaryMotorSpeed
    { tt := beginStepper (mkStepper MOTOR_STEPS_PER_REV GEAR_RATIO_TT),
      vt := beginStepper (mkStepper MOTOR_STEPS_PER_REV GEAR_RATIO_VT),
      rotDir := 1, tilDir := 1 }
    ROT_SPEED0 ROT_ACCEL0

/-- A state with an outstanding move on the pan axis. -/
def busyState : SysState :=
  { initState with tt := move initState.tt 5 }

/-- The pan-axis stepper of §8's scenario: `basestepsPerMotorRev = 100`,
`gearRatio = 11.335`, microstep resolution 16. -/
def panSample : Stepper :=
  { mkStepper 100 (11.335 : ℚ) with msRes := 16 }

/-! ## Helper lemmas -/

/-- The executable floor agrees with Mathlib's floor on `ℚ`. -/
theorem ratFloor_eq (q : ℚ) : ratFloor q = ⌊q⌋ := Rat.floor_def.symm

/-- The executable ceiling agrees with Mathlib's ceiling on `ℚ`. -/
theorem ratCeil_eq (q : ℚ) : ratCeil q = ⌈q⌉ := by
  rw [ratCeil, ratFloor_eq, Int.floor_neg, neg_neg]

/-- Rounding an integer leaves it unchanged. -/
theorem lround_intCast (n : Int) : lround ((n : ℚ)) = n := by
  unfold lround
  split
  · rw [ratFloor_eq, add_comm, Int.floor_add_int]
    norm_num
  · rw [ratCeil_eq, sub_eq_add_neg, add_comm, Int.ceil_add_int]
    norm_num

/-- Evaluation rule for `lround` on nonnegative rationals. -/
theorem lround_eq (q : ℚ) (n : Int) (h0 : 0 ≤ q) (h1 : (n : ℚ) ≤ q + 1/2)
    (h2 : q + 1/2 < n + 1) : lround q = n := by
  unfold lround
  rw [if_pos h0, ratFloor_eq, Int.floor_eq_iff]
  exact ⟨h1, h2⟩

/-- The select-line `switch` never touches the enable line. -/
theorem setMicrostepResolution_enPin (s : Stepper) (res : Int) :
    (setMicrostepResolution s res).enPin = s.enPin := by
  simp only [setMicrostepResolution]
  repeat' split
  all_goals rfl

/-- The select-line `switch` never touches the gearbox constants. -/
theorem setMicrostepResolution_base_gear (s : Stepper) (res : Int) :
    (setMicrostepResolution s res).base = s.base ∧
    (setMicrostepResolution s res).gear = s.gear := by
  simp only [setMicrostepResolution]
  repeat' split
  all_goals exact ⟨rfl, rfl⟩

/-! ## Claims -/

/-- C1 counterexample: `setMicrostepResolution` stores an out-of-range value.
On a stepper whose resolution is 16, calling it with 3 makes
`getMicrostepResolution` return 3, so the stored resolution does not keep
its previous value and the {1,2,4,8,16} invariant fails. -/
theorem C1_counterexample :
    getMicrostepResolution (setMicrostepResolution panSample 3) = 3 ∧
    getMicrostepResolution panSample = 16 := by
  constructor
  · rfl
  · rfl

/-- C1 (amended): for every integer `res` outside {1,2,4,8,16},
`setMicrostepResolution(res)` drives no select line, reports no error, and
leaves every field unchanged except the stored microstep resolution, which
becomes `res` (so the stored value can leave {1,2,4,8,16}). -/
theorem C1_thm (s : Stepper) (res : Int)
    (h1 : res ≠ 1) (h2 : res ≠ 2) (h4 : res ≠ 4) (h8 : res ≠ 8)
    (h16 : res ≠ 16) :
    setMicrostepResolution s res = { s with msRes := res } := by
  simp [setMicrostepResolution, h1, h2, h4, h8, h16]

/-- C1 witness: the amended statement at `res = 3`. -/
theorem C1_witness :
    (3 : Int) ≠ 1 ∧ (3 : Int) ≠ 16 ∧
    setMicrostepResolution panSample 3 = { panSample with msRes := 3 } :=
  ⟨by decide, by decide,
   C1_thm panSample 3 (by decide) (by decide) (by decide) (by decide)
     (by decide)⟩

/-- C5: `degToMicrosteps` agrees with the spec formula
`round(deg / 360 * outputStepsPerRotation * microstepResolution)` (with
`outputStepsPerRotation = round(base * gear)`) for every axis and degree
value, and on the pan axis (base 100, gear 11.335, microstep 16) it maps
45 degrees to 2268 pulses. -/
theorem C5_thm :
    (∀ (s : Stepper) (deg : ℚ),
        degToMicrosteps s deg = degreesToPulses_spec s deg) ∧
    degToMicrosteps panSample 45 = 2268 := by
  constructor
  · intro s deg
    simp only [degToMicrosteps, degreesToPulses_spec, getOutputStepsPerRotation,
      getMicrostepResolution]
    push_cast
    ring_nf
  · have hb : panSample.base = 100 := rfl
    have hg : panSample.gear = 11.335 := rfl
    have hm : panSample.msRes = 16 := rfl
    have hO : getOutputStepsPerRotation panSample = 1134 := by
      rw [getOutputStepsPerRotation, hb, hg]
      exact lround_eq _ _ (by norm_num) (by norm_num) (by norm_num)
    simp only [degToMicrosteps, getMicrostepResolution, hO, hm]
    exact lround_eq _ _ (by norm_num) (by norm_num) (by norm_num)

/-- C6: for every axis whose microstep resolution is one of {1,2,4,8,16},
`degToMicrosteps` at 360 degrees is exactly
`outputStepsPerRotation * microstepResolution`, with no rounding deviation. -/
theorem C6_thm (s : Stepper)
    (_h : s.msRes = 1 ∨ s.msRes = 2 ∨ s.msRes = 4 ∨ s.msRes = 8 ∨ s.msRes = 16) :
    degToMicrosteps s 360 =
      getOutputStepsPerRotation s * getMicrostepResolution s := by
  simp only [degToMicrosteps]
  have h360 : (360 : ℚ) / 360 *
      ((getOutputStepsPerRotation s * getMicrostepResolution s : Int) : ℚ)
      = ((getOutputStepsPerRotation s * getMicrostepResolution s : Int) : ℚ) := by
    norm_num
  rw [h360, lround_intCast]

/-- C6 witness: the exactness property at the concrete pan-axis stepper. -/
theorem C6_witness :
    (panSample.msRes = 1 ∨ panSample.msRes = 2 ∨ panSample.msRes = 4 ∨
      panSample.msRes = 8 ∨ panSample.msRes = 16) ∧
    degToMicrosteps panSample 360 =
      getOutputStepsPerRotation panSample * getMicrostepResolution panSample :=
  ⟨by decide, C6_thm panSample (by decide)⟩

/-- C8: for every state, dispatching the line `"Z"` replies `ERR Unknown`
and leaves the state unchanged — the tilt stop trigger is matched only as
lowercase `z`, so uppercase `Z` falls through to the unknown-command reply. -/
theorem C8_thm (st : SysState) :
    dispatchChars st ['Z'] = some (st, some "ERR Unknown") := rfl

/-- C9: `getOutputStepsPerRotation` equals `round(base * gearRatio)` and is
invariant under `setMicrostepResolution` for every valid resolution in
{1,2,4,8,16}. -/
theorem C9_thm (s : Stepper) (res : Int)
    (_h : res = 1 ∨ res = 2 ∨ res = 4 ∨ res = 8 ∨ res = 16) :
    getOutputStepsPerRotation (setMicrostepResolution s res) =
      getOutputStepsPerRotation s ∧
    getOutputStepsPerRotation s = lround ((s.base : ℚ) * s.gear) := by
  constructor
  · simp only [getOutputStepsPerRotation,
      (setMicrostepResolution_base_gear s res).1,
      (setMicrostepResolution_base_gear s res).2]
  · rfl

/-- C9 witness: the invariance at the concrete pan-axis stepper, `res = 8`. -/
theorem C9_witness :
    ((8 : Int) = 1 ∨ (8 : Int) = 2 ∨ (8 : Int) = 4 ∨ (8 : Int) = 8 ∨
      (8 : Int) = 16) ∧
    getOutputStepsPerRotation (setMicrostepResolution panSample 8) =
      getOutputStepsPerRotation panSample :=
  ⟨by decide, (C9_thm panSample 8 (by decide)).1⟩

/-- Exhaustive case analysis of a completed dispatch: whenever
`dispatchCmd` returns a value, the returned state/reply pair is one of the
branch results of `loop()`, with the trigger condition recorded for the
branches that enable a driver. -/
theorem dispatchCmd_cases (st : SysState) (c : Char) (rest : List Char)
    (out : SysState × Option String) (h : dispatchCmd st c rest = some out) :
    out = (st, some ("VERSION " ++ FW_VERSION)) ∨
    out = (st, some "ERR Syntax") ∨
    ((c = 'M' ∨ c = 'm') ∧ ∃ a b : ℚ,
        out = ({ st with tt := move (enable st.tt) (degToMicrosteps st.tt a),
                         vt := move (enable st.vt) (degToMicrosteps st.vt b) },
               some "OK M")) ∨
    out = (st, some "BUSY") ∨
    out = ({ st with tt := disable st.tt, vt := disable st.vt },
           some "DONE") ∨
    (∃ res : Int,
        out = ({ st with tt := setMicrostepResolution st.tt res,
                         vt := setMicrostepResolution st.vt res },
               some ("OK MICROSTEP " ++ toString res))) ∨
    out = ({ st with tt := move st.tt st.rotDir }, some "OK ROT STEP") ∨
    out = ({ st with tt := move st.tt (st.rotDir *
              (getOutputStepsPerRotation st.tt * getMicrostepResolution st.tt)) },
           some "OK ROT REV") ∨
    out = ({ st with rotDir := -st.rotDir }, some "OK ROT DIR") ∨
    out = ({ st with tt := stop st.tt }, some "OK ROT STOP") ∨
    out = ({ st with vt := move st.vt st.tilDir }, some "OK TILT STEP") ∨
    out = ({ st with vt := move st.vt (st.tilDir *
              (getOutputStepsPerRotation st.vt * getMicrostepResolution st.vt)) },
           some "OK TILT REV") ∨
    out = ({ st with tilDir := -st.tilDir }, some "OK TILT DIR") ∨
    out = ({ st with vt := stop st.vt }, some "OK TILT STOP") ∨
    out = ({ st with tt := disable st.tt, vt := disable st.vt },
           some "OK DRIVERS OFF") ∨
    ((c = 'e' ∨ c = 'E') ∧
        out = ({ st with tt := enable st.tt, vt := enable st.vt },
               some "OK DRIVERS ON")) ∨
    out = (st, some "ERR Unknown") := by
  unfold dispatchCmd at h
  by_cases h1 : c = 'V' ∨ c = 'v'
  · rw [if_pos h1] at h
    exact Or.inl (Option.some.inj h).symm
  rw [if_neg h1] at h
  by_cases h2 : c = 'M' ∨ c = 'm'
  · rw [if_pos h2] at h
    rcases hs : sscanfTwoFloats rest with _ | ⟨a, b⟩
    · rw [hs] at h
      exact Or.inr (Or.inl (Option.some.inj h).symm)
    · rw [hs] at h
      exact Or.inr (Or.inr (Or.inl ⟨h2, a, b, (Option.some.inj h).symm⟩))
  rw [if_neg h2] at h
  by_cases h3 : c = 'Q' ∨ c = 'q'
  · rw [if_pos h3] at h
    by_cases hb : distanceToGo st.tt ≠ 0 ∨ distanceToGo st.vt ≠ 0
    · rw [if_pos hb] at h
      exact Or.inr (Or.inr (Or.inr (Or.inl (Option.some.inj h).symm)))
    · rw [if_neg hb] at h
      exact Or.inr (Or.inr (Or.inr (Or.inr (Or.inl (Option.some.inj h).symm))))
  rw [if_neg h3] at h
  by_cases h4 : c = '1' ∨ c = '2' ∨ c = '4' ∨ c = '8' ∨ c = '6' ∨ c = Char.ofNat 0
  · rw [if_pos h4] at h
    refine Or.inr (Or.inr (Or.inr (Or.inr (Or.inr (Or.inl
      ⟨if c = '6' then 16 else (c.toNat : Int) - 48, (Option.some.inj h).symm⟩)))))
  rw [if_neg h4] at h
  by_cases h5 : c = 'n' ∨ c = 'N'
  · rw [if_pos h5] at h
    exact Or.inr (Or.inr (Or.inr (Or.inr (Or.inr (Or.inr (Or.inl
      (Option.some.inj h).symm))))))
  rw [if_neg h5] at h
  by_cases h6 : c = 'c' ∨ c = 'C'
  · rw [if_pos h6] at h
    exact Or.inr (Or.inr (Or.inr (Or.inr (Or.inr (Or.inr (Or.inr (Or.inl
      (Option.some.inj h).symm)))))))
  rw [if_neg h6] at h
  by_cases h7 : c = 'r' ∨ c = 'R'
  · rw [if_pos h7] at h
    exact Or.inr (Or.inr (Or.inr (Or.inr (Or.inr (Or.inr (Or.inr (Or.inr
      (Or.inl (Option.some.inj h).symm))))))))
  rw [if_neg h7] at h
  by_cases h8 : c = 'x' ∨ c = 'X'
  · rw [if_pos h8] at h
    exact Or.inr (Or.inr (Or.inr (Or.inr (Or.inr (Or.inr (Or.inr (Or.inr
      (Or.inr (Or.inl (Option.some.inj h).symm)))))))))
  rw [if_neg h8] at h
  by_cases h9 : c = 'w' ∨ c = 'W'
  · rw [if_pos h9] at h
    exact Or.inr (Or.inr (Or.inr (Or.inr (Or.inr (Or.inr (Or.inr (Or.inr
      (Or.inr (Or.inr (Or.inl (Option.some.inj h).symm))))))))))
  rw [if_neg h9] at h
  by_cases h10 : c = 'p' ∨ c = 'P'
  · rw [if_pos h10] at h
    exact Or.inr (Or.inr (Or.inr (Or.inr (Or.inr (Or.inr (Or.inr (Or.inr
      (Or.inr (Or.inr (Or.inr (Or.inl (Option.some.inj h).symm)))))))))))
  rw [if_neg h10] at h
  by_cases h11 : c = 't' ∨ c = 'T'
  · rw [if_pos h11] at h
    exact Or.inr (Or.inr (Or.inr (Or.inr (Or.inr (Or.inr (Or.inr (Or.inr
      (Or.inr (Or.inr (Or.inr (Or.inr (Or.inl
        (Option.some.inj h).symm))))))))))))
  rw [if_neg h11] at h
  by_cases h12 : c = 'z'
  · rw [if_pos h12] at h
    exact Or.inr (Or.inr (Or.inr (Or.inr (Or.inr (Or.inr (Or.inr (Or.inr
      (Or.inr (Or.inr (Or.inr (Or.inr (Or.inr (Or.inl
        (Option.some.inj h).symm)))))))))))))
  rw [if_neg h12] at h
  by_cases h13 : c = '+' ∨ c = '-'
  · rw [if_pos h13] at h
    exact Option.noConfusion h
  rw [if_neg h13] at h
  by_cases h14 : c = 'X'
  · exact absurd (Or.inr h14) h8
  rw [if_neg h14] at h
  by_cases h15 : c = 'd' ∨ c = 'D'
  · rw [if_pos h15] at h
    exact Or.inr (Or.inr (Or.inr (Or.inr (Or.inr (Or.inr (Or.inr (Or.inr
      (Or.inr (Or.inr (Or.inr (Or.inr (Or.inr (Or.inr (Or.inl
        (Option.some.inj h).symm))))))))))))))
  rw [if_neg h15] at h
  by_cases h16 : c = 'e' ∨ c = 'E'
  · rw [if_pos h16] at h
    exact Or.inr (Or.inr (Or.inr (Or.inr (Or.inr (Or.inr (Or.inr (Or.inr
      (Or.inr (Or.inr (Or.inr (Or.inr (Or.inr (Or.inr (Or.inr (Or.inl
        ⟨h16, (Option.some.inj h).symm⟩)))))))))))))))
  rw [if_neg h16] at h
  exact Or.inr (Or.inr (Or.inr (Or.inr (Or.inr (Or.inr (Or.inr (Or.inr
    (Or.inr (Or.inr (Or.inr (Or.inr (Or.inr (Or.inr (Or.inr (Or.inr
      (Option.some.inj h).symm)))))))))))))))

/-- C2: every input line whose first non-whitespace character is `X` is
caught by the pan-axis `switch` (case-insensitive `x`/`X`): only the pan
axis gets a stop request and the reply is `OK ROT STOP`; and the dedicated
stop-both branch (reply `OK STOP`) is unreachable for every input line. -/
theorem C2_thm :
    (∀ (st : SysState) (cs rest : List Char), trimChars cs = 'X' :: rest →
        dispatchChars st cs =
          some ({ st with tt := stop st.tt }, some "OK ROT STOP")) ∧
    (∀ (st : SysState) (cs : List Char) (out : SysState × Option String),
        dispatchChars st cs = some out → out.2 ≠ some "OK STOP") := by
  constructor
  · intro st cs rest h
    unfold dispatchChars
    rw [h]
    rfl
  · intro st cs out h
    unfold dispatchChars at h
    split at h
    · replace h := Option.some.inj h
      subst h
      simp
    · rcases dispatchCmd_cases _ _ _ _ h with
        h | h | ⟨_, a, b, h⟩ | h | h | ⟨r, h⟩ | h | h | h | h | h | h | h |
        h | h | ⟨_, h⟩ | h <;>
        subst h <;> simp <;>
        first
        | decide
        | (intro hEq
           have hlen := congrArg String.length hEq
           rw [String.length_append] at hlen
           have h13 : ("OK MICROSTEP " : String).length = 13 := rfl
           have h7 : ("OK STOP" : String).length = 7 := rfl
           rw [h13, h7] at hlen
           omega)

/-- C2 witness: the line `"X"` stops the pan axis only and its reply is not
`OK STOP`. -/
theorem C2_witness :
    dispatchChars initState ['X'] =
      some ({ initState with tt := stop initState.tt }, some "OK ROT STOP") ∧
    ({ initState with tt := stop initState.tt }, some "OK ROT STOP").2 ≠
      (some "OK STOP" : Option String) :=
  ⟨C2_thm.1 initState ['X'] [] rfl,
   C2_thm.2 initState ['X'] _ (C2_thm.1 initState ['X'] [] rfl)⟩

/-- C3 (code bug): the claim requires `GearedStepper::maxSpeed()` to
terminate and the `+`/`-` dispatch to reply `OK SPEED`, but the C++ body of
`maxSpeed()` is `return maxSpeed();` — it calls itself unconditionally, so
it produces no value for any amount of fuel and the `+`/`-` dispatch never
completes. -/
theorem C3_thm :
    (∀ (fuel : Nat) (s : Stepper), maxSpeedEval fuel s = none) ∧
    (∀ (st : SysState) (rest : List Char),
        dispatchCmd st '+' rest = none ∧ dispatchCmd st '-' rest = none) := by
  constructor
  · intro fuel
    induction fuel with
    | zero => intro s; rfl
    | succ n ih => intro s; simpa [maxSpeedEval] using ih s
  · intro st rest
    exact ⟨rfl, rfl⟩

/-- C4: dispatching `Q` replies `BUSY` when either axis has nonzero
distance-to-go, mutating nothing; when both distances are zero it disables
both drivers and replies `DONE`. -/
theorem C4_thm (st : SysState) :
    (distanceToGo st.tt ≠ 0 ∨ distanceToGo st.vt ≠ 0 →
        dispatchChars st ['Q'] = some (st, some "BUSY")) ∧
    (distanceToGo st.tt = 0 → distanceToGo st.vt = 0 →
        dispatchChars st ['Q'] =
          some ({ st with tt := disable st.tt, vt := disable st.vt },
                some "DONE")) := by
  have hQ : dispatchChars st ['Q'] =
      if distanceToGo st.tt ≠ 0 ∨ distanceToGo st.vt ≠ 0 then
        some (st, some "BUSY")
      else
        some ({ st with tt := disable st.tt, vt := disable st.vt },
              some "DONE") := rfl
  constructor
  · intro h
    rw [hQ, if_pos h]
  · intro h1 h2
    rw [hQ, if_neg]
    intro hc
    exact hc.elim (fun ha => ha h1) (fun hb => hb h2)

/-- C4 witness: `Q` on a state with an outstanding pan move replies `BUSY`;
`Q` on the idle boot state disables both drivers and replies `DONE`. -/
theorem C4_witness :
    (distanceToGo busyState.tt ≠ 0 ∨ distanceToGo busyState.vt ≠ 0) ∧
    dispatchChars busyState ['Q'] = some (busyState, some "BUSY") ∧
    distanceToGo initState.tt = 0 ∧ distanceToGo initState.vt = 0 ∧
    dispatchChars initState ['Q'] =
      some ({ initState with tt := disable initState.tt, vt := disable initState.vt },
            some "DONE") :=
  ⟨Or.inl (by decide), (C4_thm busyState).1 (Or.inl (by decide)),
   by decide, by decide, (C4_thm initState).2 (by decide) (by decide)⟩

/-- C7: when the two numeric fields after `M` are missing or malformed
(the model of `sscanf("%f %f")` returns `none`), the dispatch replies
`ERR Syntax` and the state is unchanged — no axis enabled, no target set. -/
theorem C7_thm (st : SysState) (cs : List Char) (c : Char) (rest : List Char)
    (htrim : trimChars cs = c :: rest) (hc : c = 'M' ∨ c = 'm')
    (hscan : sscanfTwoFloats rest = none) :
    dispatchChars st cs = some (st, some "ERR Syntax") := by
  unfold dispatchChars
  rw [htrim]
  rcases hc with rfl | rfl <;>
    · unfold dispatchCmd
      simp +decide [hscan]

/-- C7 witness: the single-field line `"M 10"` replies `ERR Syntax` with the
state untouched. -/
theorem C7_witness :
    trimChars ['M', ' ', '1', '0'] = 'M' :: [' ', '1', '0'] ∧
    sscanfTwoFloats [' ', '1', '0'] = none ∧
    dispatchChars initState ['M', ' ', '1', '0'] =
      some (initState, some "ERR Syntax") :=
  ⟨rfl, rfl,
   C7_thm initState ['M', ' ', '1', '0'] 'M' [' ', '1', '0'] rfl
     (Or.inl rfl) rfl⟩

/-- C10: the jog commands `n`/`c` (pan) and `w`/`p` (tilt) issue their
relative move without touching either axis's enable line; and across the
whole dispatcher, an axis goes from disabled to enabled only under the
`M` or `e` command. -/
theorem C10_thm :
    (∀ (st : SysState) (c : Char) (rest : List Char),
        c = 'n' ∨ c = 'N' ∨ c = 'c' ∨ c = 'C' ∨
        c = 'w' ∨ c = 'W' ∨ c = 'p' ∨ c = 'P' →
        ∃ out, dispatchCmd st c rest = some out ∧
          out.1.tt.enPin = st.tt.enPin ∧ out.1.vt.enPin = st.vt.enPin) ∧
    (∀ (st : SysState) (c : Char) (rest : List Char)
        (out : SysState × Option String),
        dispatchCmd st c rest = some out →
        ((st.tt.enPin = true ∧ out.1.tt.enPin = false) ∨
         (st.vt.enPin = true ∧ out.1.vt.enPin = false)) →
        c = 'M' ∨ c = 'm' ∨ c = 'e' ∨ c = 'E') := by
  constructor
  · intro st c rest h
    rcases h with rfl | rfl | rfl | rfl | rfl | rfl | rfl | rfl <;>
      exact ⟨_, rfl, rfl, rfl⟩
  · intro st c rest out h hen
    rcases dispatchCmd_cases _ _ _ _ h with
      h | h | ⟨hc, a, b, h⟩ | h | h | ⟨r, h⟩ | h | h | h | h | h | h | h |
      h | h | ⟨hc, h⟩ | h <;>
      subst h <;>
      first
      | tauto
      | (rcases hen with ⟨h1, h2⟩ | ⟨h1, h2⟩ <;>
          simp_all [move, stop, enable, disable, setMicrostepResolution_enPin])

/-- C10 witness: `n` on the boot state keeps both enable lines unchanged,
and the `e` dispatch (which does enable a disabled axis) is in the allowed
set. -/
theorem C10_witness :
    (∃ out, dispatchCmd initState 'n' [] = some out ∧
        out.1.tt.enPin = initState.tt.enPin ∧
        out.1.vt.enPin = initState.vt.enPin) ∧
    (('e' : Char) = 'M' ∨ ('e' : Char) = 'm' ∨ ('e' : Char) = 'e' ∨
      ('e' : Char) = 'E') :=
  ⟨C10_thm.1 initState 'n' [] (Or.inl rfl),
   C10_thm.2 initState 'e' []
     ({ initState with tt := enable initState.tt, vt := enable initState.vt },
      some "OK DRIVERS ON")
     rfl (Or.inl ⟨rfl, rfl⟩)⟩

end CameraCommander
